import Mathlib

/-
Verification of the PMS command-line package manager (src/pms.py) against
its natural-language specification.  The Python source is shallowly
embedded: network and filesystem effects are passed explicitly, Python
exceptions become Except values, and sys.exit(c) becomes an explicit exit
code in the result.
-/

/-- Result of get_latest_version (src/pms.py lines 166-174).  The Python
function RETURNS the caught exception object from its except block
(`return e`) instead of raising, so callers receive either a version
string or an exception value. -/
inductive GLV where
  | version (s : String)
  | exc (e : String)
deriving DecidableEq

deriving instance DecidableEq for Except

/-- A downloaded module archive: `valid` says whether zipfile.ZipFile can
open it, `content` stands for the files it extracts. -/
structure Archive where
  valid : Bool
  content : String
deriving DecidableEq

/-- The registry server side (PMS_SERVER): outcome of the latest-version
endpoint and of the module-download endpoint, as functions of the module
name (and optional version query parameter for download).  An
Except.error models a requests exception or a non-2xx status raised by
raise_for_status. -/
structure Registry where
  latest : String → Except String String
  download : String → Option String → Except String Archive

/-- Extraction of the temporary zip (zipfile.ZipFile + extractall): fails
when the archive is not a valid zip. -/
def unzip (ar : Archive) : Except String String :=
  if ar.valid then Except.ok ar.content else Except.error "BadZipFile"

/-- The project manifest file pms_project.json (name plus the
module-to-version mapping). -/
structure Manifest where
  name : String
  modules : List (String × String)
deriving DecidableEq

/-- The project on disk: the manifest file (none when missing or
unreadable) and the contents extracted under Modules/<module>. -/
structure FS where
  manifest : Option Manifest
  dirs : List (String × String)
deriving DecidableEq

/-- Update of a string-keyed association list (Python dict assignment
`d[k] = v`). -/
def setAssoc (l : List (String × String)) (k v : String) : List (String × String) :=
  match l with
  | [] => [(k, v)]
  | (k2, v2) :: rest => if k2 == k then (k, v) :: rest else (k2, v2) :: setAssoc rest k v

/-- Embeds get_latest_version (lines 166-174): GET
/modules/<name>/versions/latest with timeout 15; on success the body text
is the version, on any exception the exception itself is RETURNED (not
raised). -/
def get_latest_version (reg : Registry) (package_name : String) : GLV :=
  match reg.latest package_name with
  | Except.ok v => GLV.version v
  | Except.error e => GLV.exc e

/-- Python str() of the value bound to `version` in cmd_install: either
the version string or the exception message. -/
def glvStr : GLV → String
  | GLV.version s => s
  | GLV.exc e => e

/-- Python str.lower (character-wise lowering). -/
def pyLower (s : String) : String := String.mk (s.data.map Char.toLower)

/-- Whitespace stripped by Python str.strip. -/
def isPySpace (c : Char) : Bool :=
  c == ' ' || c == '\t' || c == '\n' || c == '\r' || c == '\x0b' || c == '\x0c'

/-- Python str.strip: remove leading and trailing whitespace. -/
def pyStrip (s : String) : String :=
  String.mk (((s.data.dropWhile isPySpace).reverse.dropWhile isPySpace).reverse)

/-- Python `c in s` for a single character. -/
def pyContainsChar (s : String) (c : Char) : Bool := s.data.any fun x => x == c

/-- Python s.split(sep, 1) for a one-character separator: the part
before the first occurrence and everything after it. -/
def pySplitOnceChars : List Char → Char → List Char × List Char
  | [], _ => ([], [])
  | x :: xs, c =>
    if x == c then ([], xs)
    else
      let r := pySplitOnceChars xs c
      (x :: r.1, r.2)

/-- Python s.split(sep, 1) on strings. -/
def pySplitOnce (s : String) (c : Char) : String × String :=
  let r := pySplitOnceChars s.data c
  (String.mk r.1, String.mk r.2)

/-- Embeds ask_confirm (lines 102-107).  `answer = input(...).strip().lower()`,
`r = answer.lower() in ("y", "yes")` (the source lowercases twice); a
decline prints Cancelled. and calls sys.exit(1) (modeled Except.error 1).
An affirmative answer falls off the end of the function, so ask_confirm
returns Python None (modeled Except.ok none): the function has NO return
statement. -/
def ask_confirm (answerRaw : String) : Except Nat (Option Bool) :=
  if (pyLower (pyLower (pyStrip answerRaw)) == "y" ||
      pyLower (pyLower (pyStrip answerRaw)) == "yes") != true
  then Except.error 1
  else Except.ok none

/-- Python `not` on an Optional[bool]: None is falsy. -/
def pyNot : Option Bool → Bool
  | none => true
  | some b => !b

/-- Python truthiness of an Optional[bool]. -/
def pyTruthy : Option Bool → Bool
  | none => false
  | some b => b

/-- Result of one run of cmd_install: the process exit status, the final
project state, the confirmation prompt that was shown (if any), whether a
download request was issued, and which (module, content) extraction
happened during the run. -/
structure InstallOutcome where
  exitCode : Nat
  fs : FS
  prompt : Option String
  downloadAttempted : Bool
  extracted : Option (String × String)
deriving DecidableEq

/-- Embeds the try block of cmd_install (lines 200-227): download to a
temporary file, extract into Modules/<module_name>, then load and persist
the manifest with modules[module_name] = version.  A RequestException or
any other exception prints and calls sys.exit(1).  When `version` is the
exception object returned by get_latest_version, json.dump raises on it
mid-write, so the manifest file is left corrupt (modeled none). -/
def install_body (reg : Registry) (fs : FS) (module_name : String) (version : GLV)
    (promptMsg : String) : InstallOutcome :=
  let params := match version with
    | GLV.version s => if s == "latest" then none else some s
    | GLV.exc e => some e
  match reg.download module_name params with
  | Except.error _ => ⟨1, fs, some promptMsg, true, none⟩
  | Except.ok ar =>
    match unzip ar with
    | Except.error _ => ⟨1, fs, some promptMsg, true, none⟩
    | Except.ok content =>
      let fs1 : FS := { fs with dirs := setAssoc fs.dirs module_name content }
      match fs1.manifest with
      | none => ⟨1, fs1, some promptMsg, true, some (module_name, content)⟩
      | some md =>
        match version with
        | GLV.exc _ => ⟨1, { fs1 with manifest := none }, some promptMsg, true,
            some (module_name, content)⟩
        | GLV.version v =>
          ⟨0, { fs1 with manifest := some { md with modules := setAssoc md.modules module_name v } },
            some promptMsg, true, some (module_name, content)⟩

/-- Embeds cmd_install (lines 177-227).  argv is sys.argv; answerRaw is
the line the user types at the confirmation prompt.  module_str.split("@", 1)
is modeled by taking the part before the first @ as the name and the rest
as the version.  The guard `if not ask_confirm(...): sys.exit(0)` is kept
exactly: ask_confirm either exits 1 (decline) or returns None, and
`not None` is true, so an affirmative answer reaches sys.exit(0). -/
def cmd_install (argv : List String) (answerRaw : String) (reg : Registry) (fs : FS) :
    InstallOutcome :=
  match argv with
  | _ :: _ :: module_str :: rest =>
    let _project_dir := rest.headD "."
    let module_name := if pyContainsChar module_str '@' then (pySplitOnce module_str '@').1
      else module_str
    let version := if pyContainsChar module_str '@' then
        GLV.version (pySplitOnce module_str '@').2
      else get_latest_version reg module_str
    let promptMsg := "Install " ++ module_name ++ "@" ++ glvStr version ++ "?"
    match ask_confirm answerRaw with
    | Except.error c => ⟨c, fs, some promptMsg, false, none⟩
    | Except.ok v =>
      if pyNot v then ⟨0, fs, some promptMsg, false, none⟩
      else install_body reg fs module_name version promptMsg
  | _ => ⟨1, fs, none, false, none⟩

/-- Local credential record pms_auth.json. -/
structure Auth where
  username : String
  token : String
  refresh_token : String
deriving DecidableEq

/-- Embeds save_auth (lines 69-76): writes the three fields. -/
def save_auth (username token refresh_token2 : String) : Auth :=
  ⟨username, token, refresh_token2⟩

/-- Embeds clear_auth (lines 79-83): unlinks the credential file
(missing_ok), regardless of its contents. -/
def clear_auth (_cred : Option Auth) : Option Auth := none

/-- Embeds the logout entry of the command table (line 547):
`ask_confirm("Log out?") and clear_auth() and print("Logged out.")`.
Python `and` short-circuits on a falsy left operand, and ask_confirm
returns None on an affirmative answer. -/
def logout_cmd (answerRaw : String) (cred : Option Auth) : Except Nat (Option Auth) :=
  match ask_confirm answerRaw with
  | Except.error c => Except.error c
  | Except.ok v => if pyTruthy v then Except.ok (clear_auth cred) else Except.ok cred

/-- Embeds refresh_auth_token (lines 340-372).  `alive` is the result of
is_access_token_alive; `resp` is the outcome of GET /refresh (error = any
exception or non-2xx, ok none = response without a token field).  Python
falsiness of an absent or empty token is kept. -/
def refresh_auth_token (alive : Bool) (auth : Auth) (resp : Except String (Option String)) :
    Except Nat Auth :=
  if alive then Except.ok auth
  else if auth.refresh_token == "" then Except.error 1
  else
    match resp with
    | Except.error _ => Except.error 1
    | Except.ok none => Except.error 1
    | Except.ok (some t) =>
      if t == "" then Except.error 1
      else Except.ok (save_auth auth.username t auth.refresh_token)

/-- The staleness scan of cmd_update_modules (line 435) invokes
`get_latest_version()` with NO argument; Python raises TypeError at the
call site, before the function body (and its internal try/except) runs,
so the call never reaches the network. -/
def get_latest_version_noargs : Except String String :=
  Except.error "TypeError: get_latest_version missing 1 required positional argument"

/-- The update loop (line 455) invokes `os.removedirs()` with NO
argument; Python raises TypeError at the call site. -/
def os_removedirs_noargs : Except String Unit :=
  Except.error "TypeError: removedirs missing 1 required positional argument"

/-- Embeds the staleness scan of cmd_update_modules (lines 431-445):
iterate over the manifest's module NAMES, call the latest-version lookup
(without the module name — see get_latest_version_noargs), catch the
error and continue; otherwise compare the loop variable (the module
name, not its installed version) against the fetched latest and append
to TO_UPDATE when they differ. -/
def scanStale (_reg : Registry) (mods : List String) : List String :=
  match mods with
  | [] => []
  | m :: rest =>
    match get_latest_version_noargs with
    | Except.error _ => scanStale _reg rest
    | Except.ok latest =>
      if m == latest then scanStale _reg rest else m :: scanStale _reg rest

/-- Embeds one iteration of the second loop of cmd_update_modules (lines
447-487) for a stale module m: resolve latest (this time with the name),
attempt `os.removedirs()` (TypeError, caught, continue), then download,
extract, and rewrite the manifest; a download or installation failure
calls sys.exit(1).  Returns (exit code if the process terminated, the
project state afterwards, whether a download request was issued). -/
def updateStep (reg : Registry) (fs : FS) (m : String) : Option Nat × FS × Bool :=
  let latest_ver := get_latest_version reg m
  match os_removedirs_noargs with
  | Except.error _ => (none, fs, false)
  | Except.ok _ =>
    match reg.download m none with
    | Except.error _ => (some 1, fs, true)
    | Except.ok ar =>
      match unzip ar with
      | Except.error _ => (some 1, fs, true)
      | Except.ok content =>
        let fs1 : FS := { fs with dirs := setAssoc fs.dirs m content }
        match fs1.manifest with
        | none => (some 1, fs1, true)
        | some md =>
          match latest_ver with
          | GLV.exc _ => (some 1, { fs1 with manifest := none }, true)
          | GLV.version v =>
            (none, { fs1 with manifest := some { md with modules := setAssoc md.modules m v } },
              true)

/-- The second loop of cmd_update_modules over the TO_UPDATE list:
returns (final exit code — 0 when the loop runs to completion, the final
project state, the modules for which a download was issued). -/
def updateLoop (reg : Registry) (mods : List String) (fs : FS) : Nat × FS × List String :=
  match mods with
  | [] => (0, fs, [])
  | m :: rest =>
    match updateStep reg fs m with
    | (some c, fs2, att) => (c, fs2, if att then [m] else [])
    | (none, fs2, att) =>
      let r := updateLoop reg rest fs2
      (r.1, r.2.1, (if att then [m] else []) ++ r.2.2)

/-- Result of one run of cmd_update_modules: exit status (0 when the
function returns normally), final project state, the TO_UPDATE list the
scan built, and the modules for which a download request was issued. -/
structure UpdateOutcome where
  exitCode : Nat
  fs : FS
  staleList : List String
  downloadsAttempted : List String
deriving DecidableEq

/-- Embeds cmd_update_modules (lines 414-487): ensure the Modules folder
exists (no effect on tracked module contents), load the manifest
(sys.exit(1) when missing), build TO_UPDATE with the staleness scan, then
run the update loop over it. -/
def cmd_update_modules (reg : Registry) (fs : FS) : UpdateOutcome :=
  match fs.manifest with
  | none => ⟨1, fs, [], []⟩
  | some md =>
    let TO_UPDATE := scanStale reg (md.modules.map Prod.fst)
    let r := updateLoop reg TO_UPDATE fs
    ⟨r.1, r.2.1, TO_UPDATE, r.2.2⟩

/-- One requests.* call site in src/pms.py: enclosing function, HTTP
method, server path, and the timeout argument passed (none = no timeout
argument, so the request can wait indefinitely). -/
structure RequestSite where
  fn : String
  method : String
  path : String
  timeout : Option Nat
deriving DecidableEq

/-- All eleven requests.* call sites of src/pms.py with the timeout each
passes: lines 90 (check), 170 (latest version), 201 (install download),
270 (list versions), 287 (register), 307 (login), 329 (whoami),
354 (refresh), 400 (upload), 461 (update download), 516 (delete). -/
def networkCalls : List RequestSite :=
  [⟨"is_access_token_alive", "GET", "/check", none⟩,
   ⟨"get_latest_version", "GET", "/modules/<name>/versions/latest", some 15⟩,
   ⟨"cmd_install", "GET", "/modules/<name>", some 30⟩,
   ⟨"cmd_list_versions", "GET", "/modules/<name>/versions", some 15⟩,
   ⟨"cmd_register", "POST", "/register", some 15⟩,
   ⟨"cmd_login", "POST", "/login", some 15⟩,
   ⟨"cmd_whoami", "GET", "/whoami", some 10⟩,
   ⟨"refresh_auth_token", "GET", "/refresh", none⟩,
   ⟨"cmd_upload", "POST", "/modules/upload", some 60⟩,
   ⟨"cmd_update_modules", "GET", "/modules/<name>", some 30⟩,
   ⟨"cmd_delete_from_pls", "POST", "/modules/<name>/delete", none⟩]

/-- A registry whose every request fails with a connection error. -/
def reg0 : Registry :=
  { latest := fun _ => Except.error "ConnectionError",
    download := fun _ _ => Except.error "ConnectionError" }

/-- A registry that reports latest version 2.0.0 for every module and
whose downloads fail. -/
def regUp : Registry :=
  { latest := fun _ => Except.ok "2.0.0",
    download := fun _ _ => Except.error "ConnectionError" }

/-- A registry that reports latest version 2.0.0 for every module and
serves a valid archive. -/
def regLeft : Registry :=
  { latest := fun _ => Except.ok "2.0.0",
    download := fun _ _ => Except.ok ⟨true, "archive-2.0.0"⟩ }

/-- A project whose manifest records foo at version 0.9, with the
matching directory content. -/
def fsA : FS :=
  { manifest := some { name := "demo", modules := [("foo", "0.9")] },
    dirs := [("foo", "content-0.9")] }

/-- A project with two installed modules m1 and m2, both at 1.0.0. -/
def fsDemo : FS :=
  { manifest := some { name := "demo", modules := [("m1", "1.0.0"), ("m2", "1.0.0")] },
    dirs := [("m1", "c1"), ("m2", "c2")] }

/-- A project with leftpad installed at 1.0.0. -/
def fsLeft : FS :=
  { manifest := some { name := "demo", modules := [("leftpad", "1.0.0")] },
    dirs := [("leftpad", "c-1.0.0")] }

/-- argv of `pms install foo@1.0.0`. -/
def argvC1 : List String := ["pms", "install", "foo@1.0.0"]

/-- argv of `pms install foo` (latest requested). -/
def argvC4 : List String := ["pms", "install", "foo"]

/-- argv of `pms install bar@2.0.0`. -/
def argvC9 : List String := ["pms", "install", "bar@2.0.0"]

/-- A concrete credential record. -/
def credAlice : Auth := ⟨"alice", "tok", "ref"⟩

/-- ask_confirm never returns a boolean: its only non-exiting outcome is
Python None (the function body has no return statement). -/
theorem ask_confirm_ok_none (a : String) (v : Option Bool) (h : ask_confirm a = Except.ok v) :
    v = none := by
  unfold ask_confirm at h
  split at h
  · exact Except.noConfusion h
  · injection h with h2
    exact h2.symm

/-- cmd_install never changes the project state: every affirmative
confirmation reaches `sys.exit(0)` through `if not ask_confirm(...)`,
so the download-and-install block is unreachable. -/
theorem cmd_install_fs_unchanged (argv : List String) (ans : String) (reg : Registry)
    (fs : FS) : (cmd_install argv ans reg fs).fs = fs := by
  unfold cmd_install
  cases argv with
  | nil => rfl
  | cons a t =>
    cases t with
    | nil => rfl
    | cons b u =>
      cases u with
      | nil => rfl
      | cons m rest =>
        dsimp only
        cases hq : ask_confirm ans with
        | error c => rfl
        | ok v =>
          rw [ask_confirm_ok_none ans v hq]
          rfl

/-- The staleness scan of cmd_update_modules adds no module: the no-arg
lookup call fails on every iteration and the except branch continues. -/
theorem scanStale_eq_nil (reg : Registry) (mods : List String) : scanStale reg mods = [] := by
  induction mods with
  | nil => rfl
  | cons m rest ih => simpa [scanStale, get_latest_version_noargs] using ih

/-- C1: running `pms install foo@1.0.0` on a project whose manifest maps
foo to 0.9 and answering the confirmation affirmatively exits with
status 0, yet nothing is extracted and the manifest is untouched: the
success exit does NOT leave modules[foo] equal to an extracted 1.0.0,
because ask_confirm returns None and `if not ask_confirm(...)` runs
sys.exit(0) before the download. -/
theorem c1_accept_installs_nothing :
    (cmd_install argvC1 "y" reg0 fsA).exitCode = 0 ∧
    (cmd_install argvC1 "y" reg0 fsA).extracted = none ∧
    (cmd_install argvC1 "y" reg0 fsA).fs = fsA := by
  decide

/-- C2: on a project with modules m1 and m2 both at 1.0.0 and a registry
whose latest is 2.0.0 but whose downloads fail, cmd_update_modules marks
nothing stale and issues no download at all, so the claimed per-module
failure tolerance of the batch never comes into play; the loop body that
would handle a download failure calls sys.exit(1) instead of continuing. -/
theorem c2_update_batch_attempts_nothing :
    cmd_update_modules regUp fsDemo = ⟨0, fsDemo, [], []⟩ := by
  decide

/-- C3: with leftpad installed at 1.0.0 and the registry reporting
latest 2.0.0, the staleness scan still skips leftpad (empty stale list):
it never compares the installed version 1.0.0 with the latest version,
because the lookup is invoked without the module name and always fails,
and the comparison it would perform uses the module name, not the
installed version. -/
theorem c3_stale_scan_skips_newer :
    scanStale regLeft ["leftpad"] = [] ∧
    cmd_update_modules regLeft fsLeft = ⟨0, fsLeft, [], []⟩ := by
  decide

/-- C4: running `pms install foo` when the latest-version lookup fails
with a connection error still reaches the confirmation prompt, with the
exception text substituted for the version, and an affirmative answer
exits 0: the install does not fail with a resolution error before
confirmation. -/
theorem c4_lookup_failure_reaches_confirmation :
    (cmd_install argvC4 "y" reg0 fsA).prompt = some "Install foo@ConnectionError?" ∧
    (cmd_install argvC4 "y" reg0 fsA).exitCode = 0 ∧
    (cmd_install argvC4 "y" reg0 fsA).fs = fsA := by
  decide

/-- C5: with a credential record on disk, running logout and answering
the confirmation affirmatively leaves the record in place: ask_confirm
returns None, so the `and` chain short-circuits and clear_auth is never
invoked. -/
theorem c5_logout_leaves_credentials :
    logout_cmd "y" (some credAlice) = Except.ok (some credAlice) := by
  decide

/-- C6: when the access token is not alive and the refresh call succeeds
with a (non-empty) new access token t2, and a refresh token is present,
the persisted credential record is exactly the original username, the
new token t2, and the original refresh token. -/
theorem c6_refresh_preserves (auth : Auth) (t2 : String)
    (hr : auth.refresh_token ≠ "") (ht : t2 ≠ "") :
    refresh_auth_token false auth (Except.ok (some t2)) =
      Except.ok (Auth.mk auth.username t2 auth.refresh_token) := by
  simp [refresh_auth_token, save_auth, hr, ht]

/-- C6 witness: refreshing the record (alice, old, ref) with new token
new persists (alice, new, ref). -/
theorem c6_refresh_preserves_witness :
    refresh_auth_token false (Auth.mk "alice" "old" "ref") (Except.ok (some "new")) =
      Except.ok (Auth.mk "alice" "new" "ref") :=
  c6_refresh_preserves (Auth.mk "alice" "old" "ref") "new" (by decide) (by decide)

/-- C7 counterexample: declining the install confirmation exits with
status 1, not 0. -/
theorem c7_decline_counterexample :
    (cmd_install argvC1 "n" reg0 fsA).exitCode = 1 ∧
    ¬ (cmd_install argvC1 "n" reg0 fsA).exitCode = 0 := by
  decide

/-- C7 (amended): whenever the typed answer, stripped and lowercased, is
neither y nor yes, ask_confirm prints Cancelled. and exits the process
with status 1 — every confirmation prompt in the program goes through
ask_confirm, so a declined confirmation is a status-1 exit. -/
theorem c7_decline_exits_one (answerRaw : String)
    (h1 : (pyLower (pyLower (pyStrip answerRaw)) == "y") = false)
    (h2 : (pyLower (pyLower (pyStrip answerRaw)) == "yes") = false) :
    ask_confirm answerRaw = Except.error 1 := by
  simp [ask_confirm, h1, h2]

/-- C7 witness: answering n exits with status 1. -/
theorem c7_decline_exits_one_witness : ask_confirm "n" = Except.error 1 :=
  c7_decline_exits_one "n" (by decide) (by decide)

/-- C8 counterexample: not every network call in the program carries a
finite timeout — the liveness check GET /check is issued with no timeout
argument. -/
theorem c8_timeout_counterexample :
    (RequestSite.mk "is_access_token_alive" "GET" "/check" none) ∈ networkCalls ∧
    (networkCalls.all fun s => s.timeout.isSome) = false := by
  decide

/-- C8 (amended): exactly three network calls are issued without any
timeout — the liveness check, the token refresh, and the module-delete
request; every other call site passes a finite timeout. -/
theorem c8_untimed_exactly_three :
    (networkCalls.filter fun s => s.timeout.isNone).map RequestSite.fn =
      ["is_access_token_alive", "refresh_auth_token", "cmd_delete_from_pls"] := by
  decide

/-- C9: every run of cmd_install that fails (exits with a non-zero
status) leaves the project manifest exactly as it was. -/
theorem c9_failed_install_leaves_manifest (argv : List String) (ans : String)
    (reg : Registry) (fs : FS) (_h : (cmd_install argv ans reg fs).exitCode ≠ 0) :
    (cmd_install argv ans reg fs).fs.manifest = fs.manifest := by
  rw [cmd_install_fs_unchanged]

/-- C9 witness: the declined run of `pms install bar@2.0.0` fails and
leaves the manifest unchanged. -/
theorem c9_failed_install_leaves_manifest_witness :
    (cmd_install argvC9 "n" reg0 fsA).fs.manifest = fsA.manifest :=
  c9_failed_install_leaves_manifest argvC9 "n" reg0 fsA (by decide)

/-- C10: for every registry and every project state, cmd_update_modules
builds an empty stale list, issues no download, and leaves the project
(manifest and module directories) unchanged. -/
theorem c10_update_all_is_noop (reg : Registry) (fs : FS) :
    (cmd_update_modules reg fs).staleList = [] ∧
    (cmd_update_modules reg fs).downloadsAttempted = [] ∧
    (cmd_update_modules reg fs).fs = fs := by
  unfold cmd_update_modules
  cases h : fs.manifest with
  | none => exact ⟨rfl, rfl, rfl⟩
  | some md => simp [scanStale_eq_nil, updateLoop]

/-- C10 witness: on the two-module demo project with a failing registry,
the stale list is empty, nothing is downloaded, and the project is
unchanged. -/
theorem c10_update_all_is_noop_witness :
    (cmd_update_modules reg0 fsDemo).staleList = [] ∧
    (cmd_update_modules reg0 fsDemo).downloadsAttempted = [] ∧
    (cmd_update_modules reg0 fsDemo).fs = fsDemo :=
  c10_update_all_is_noop reg0 fsDemo

